import Mathlib

/-!
Shallow embedding of `learn_image_embeddings.py` from the
`semantic-embeddings` repository, together with proofs of the spec claims.

The script is a training driver: it parses arguments, loads a pickled
class-embedding matrix, builds (or resumes) a Keras model, selects a loss
and a metric, compiles and fits the model, and dumps artifacts.  The
definitions below mirror the script's own logic; calls into Keras, numpy
and the sibling `utils`/`datasets` modules are modelled as opaque
constructors (symbolic tensors, abstract callbacks, abstract sequences),
since only the script's orchestration decisions are claimed.

Numbers: Python ints are embedded as `Int` (with `Int.fdiv` for `//`),
Python floats as `Rat` (the script only forms ratios of its arguments).
-/

namespace LearnImageEmbeddings

/-- Truthiness of a Python string: non-empty strings are truthy. -/
def pyTruthyStr (s : String) : Bool := s ≠ ""

/-- Truthiness of an optional Python string (`None` is falsy, `''` is falsy). -/
def pyTruthyOptStr : Option String → Bool
  | none => false
  | some s => pyTruthyStr s

/-- Truthiness of an optional Python int (`None` is falsy, `0` is falsy). -/
def pyTruthyOptInt : Option Int → Bool
  | none => false
  | some n => n ≠ 0

/-- Python list indexing `l[i]`: a negative index counts from the end;
an index out of range raises (here: `none`). -/
def pyIndex {α : Type} (l : List α) (i : Int) : Option α :=
  if 0 ≤ i then l.get? i.toNat
  else if i.natAbs ≤ l.length then l.get? (l.length - i.natAbs) else none

/-- Digit part of a Python integer literal: one or more decimal digits with
optional single underscores between digit groups (as accepted by `int()`
since Python 3.6). -/
def pyDigits : List Char → Option Nat
  | [] => none
  | c :: rest =>
    if c.isDigit then pyDigitsGo (c.toNat - 48) rest else none
where
  pyDigitsGo (acc : Nat) : List Char → Option Nat
    | [] => some acc
    | '_' :: c :: rest =>
      if c.isDigit then pyDigitsGo (acc * 10 + (c.toNat - 48)) rest else none
    | c :: rest =>
      if c.isDigit then pyDigitsGo (acc * 10 + (c.toNat - 48)) rest else none

/-- Surrounding-whitespace stripping, as `int()` applies to its string
argument. -/
def pyStrip (cs : List Char) : List Char :=
  ((cs.dropWhile Char.isWhitespace).reverse.dropWhile Char.isWhitespace).reverse

/-- Python `int(s)` on a string: strip surrounding whitespace, then an
optional sign followed by a digit part; any other shape raises
`ValueError` (here: `none`). -/
def pyParseInt (s : String) : Option Int :=
  match pyStrip s.toList with
  | '+' :: rest => (pyDigits rest).map Int.ofNat
  | '-' :: rest => (pyDigits rest).map (fun n => -(n : Int))
  | cs => (pyDigits cs).map Int.ofNat

/-! ## The embedding matrix and `transform_inputs` -/

/-- A numpy matrix is embedded as its list of rows (entries in `ℚ`). -/
abbrev NpMatrix := List (List ℚ)

/-- The numpy `m.shape[1]`: the second dimension of a 2-d numpy array.  For the
(uniform) arrays produced by `compute_class_embeddings.py` every row has
this length, so it is read off the first row. -/
def npShape1 (m : NpMatrix) : Nat := (m.headD []).length

/-- numpy fancy indexing `embedding[y]` for an index vector `y`: the rows
selected by `y`, in order; an out-of-range label raises `IndexError`
(here: `none`). -/
def npIndexRows (embedding : NpMatrix) : List Nat → Option NpMatrix
  | [] => some []
  | i :: rest => do
    let r ← embedding[i]?
    let rs ← npIndexRows embedding rest
    pure (r :: rs)

/-- Keras `keras.utils.to_categorical(y, num_classes)`: one-hot rows. -/
def to_categorical (y : List Nat) (num_classes : Nat) : NpMatrix :=
  y.map (fun i => (List.range num_classes).map (fun j => if j = i then (1 : ℚ) else 0))

/-- The regression target returned by `transform_inputs`: either the
embedding rows alone, or the two-element list of embedding rows and
one-hot class rows. -/
inductive RegTarget where
  | single (emb : NpMatrix)
  | pair (emb : NpMatrix) (cat : NpMatrix)
  deriving DecidableEq, Repr

/-- The function `transform_inputs(X, y, embedding, num_classes=None)` (lines 48-50):
`(X, embedding[y])` when `num_classes is None`, and
`(X, [embedding[y], to_categorical(y, num_classes)])` otherwise. -/
def transform_inputs {α : Type} (X : α) (y : List Nat) (embedding : NpMatrix)
    (num_classes : Option Nat := none) : Option (α × RegTarget) :=
  match num_classes with
  | none => (npIndexRows embedding y).map (fun rows => (X, RegTarget.single rows))
  | some n =>
    (npIndexRows embedding y).map (fun rows => (X, RegTarget.pair rows (to_categorical y n)))

/-- The `batch_transform_kwargs` dict (lines 148-151): the loaded embedding
matrix together with `num_classes`, which is the dataset's class count when
`cls_weight > 0` and `None` otherwise. -/
def batch_transform_num_classes (cls_weight : ℚ) (dataset_num_classes : Nat) : Option Nat :=
  if cls_weight > 0 then some dataset_num_classes else none

/-! ## Loss and metric selection -/

/-- The two embedding losses the script can select from `utils`. -/
inductive LossFn where
  | inv_correlation
  | squared_distance
  deriving DecidableEq, Repr

/-- The metric selected for the embedding output: the plain Keras
`'accuracy'` string, or `utils.nn_accuracy(embedding, dot_prod_sim=...)`. -/
inductive Metric where
  | accuracy
  | nn_accuracy (dot_prod_sim : Bool)
  deriving DecidableEq, Repr

/-- The admissible values of `--loss` (the argparse `choices`). -/
def lossChoices : List String := ["mse", "inv_corr", "unnorm_corr", "softmax_corr"]

/-- Python `s.endswith(suffix)`. -/
def pyEndsWith (s suffix : String) : Bool := suffix.toList.isSuffixOf s.toList

/-- Loss selection (lines 152-157): `utils.inv_correlation` when the loss
name ends with `'_corr'`, else `utils.squared_distance`. -/
def select_loss (loss : String) : LossFn :=
  if pyEndsWith loss "_corr" then LossFn.inv_correlation else LossFn.squared_distance

/-- Metric selection (lines 152-157): `'accuracy'` for `softmax_corr`,
`nn_accuracy` with dot-product similarity for the other `_corr` losses,
`nn_accuracy` with distance-based similarity otherwise. -/
def select_metric (loss : String) : Metric :=
  if pyEndsWith loss "_corr" then
    if loss = "softmax_corr" then Metric.accuracy else Metric.nn_accuracy true
  else Metric.nn_accuracy false

/-! ## Symbolic Keras models

Keras calls are modelled symbolically: a tensor is either the output of
`utils.build_network`, the (opaque) output of a model deserialized from a
snapshot, or a layer applied to a tensor. -/

/-- A Keras layer, as far as the script configures one. -/
inductive SLayer where
  | activation (name : String)
  | lambdaLayer (name : String)
  | batchNormalization
  | dense (units : Nat) (activation : String) (l2reg : ℚ) (name : String)
  deriving DecidableEq, Repr

/-- A symbolic Keras tensor. -/
inductive Tensor where
  | netOutput (embDim : Nat) (architecture : String)
  | snapshotOutput (path : String)
  | layerApp (layer : SLayer) (input : Tensor)
  deriving DecidableEq, Repr

/-- A symbolic Keras model: its input ids, its output tensors, and its
layers as `(name, layer output tensor)` pairs in `model.layers` order. -/
structure SModel where
  inputs : List Nat
  outputs : List Tensor
  layers : List (String × Tensor)
  deriving DecidableEq, Repr

/-- Keras `model.get_layer(name)` (raises when absent: `none`). -/
def SModel.get_layer (m : SModel) (name : String) : Option (String × Tensor) :=
  m.layers.find? (fun l => l.1 = name)

/-- The tensor `cls_model` branches the classifier from (lines 34-40):
the model output when `cls_base is None`; otherwise `layers[int(cls_base)]`
when `int(cls_base)` parses, and `get_layer(cls_base)` on `ValueError`. -/
def clsBaseTensor (embed_model : SModel) (cls_base : Option String) : Option Tensor :=
  match cls_base with
  | none => embed_model.outputs.head?
  | some s =>
    match pyParseInt s with
    | some i => (pyIndex embed_model.layers i).map Prod.snd
    | none => (embed_model.get_layer s).map Prod.snd

/-- The classifier stack appended by `cls_model` (lines 42-44): a ReLU
activation, batch normalization, and a dense softmax layer named `'prob'`
with an L2 kernel regularizer of `5e-4`. -/
def clsStack (num_classes : Nat) (base : Tensor) : Tensor :=
  Tensor.layerApp (SLayer.dense num_classes "softmax" (5 / 10000) "prob")
    (Tensor.layerApp SLayer.batchNormalization
      (Tensor.layerApp (SLayer.activation "relu") base))

/-- The function `cls_model(embed_model, num_classes, cls_base)` (lines 16-45): a new
model with the same inputs, whose outputs are the original output of
`embed_model` followed by the appended classifier's output.  Indexing or
layer-name failures raise (here: `none`). -/
def cls_model (embed_model : SModel) (num_classes : Nat)
    (cls_base : Option String := none) : Option SModel := do
  let out ← embed_model.outputs.head?
  let base ← clsBaseTensor embed_model cls_base
  let x := clsStack num_classes base
  pure { inputs := embed_model.inputs
         outputs := [out, x]
         layers := embed_model.layers ++
           [("relu_act", Tensor.layerApp (SLayer.activation "relu") base),
            ("batch_norm", Tensor.layerApp SLayer.batchNormalization
              (Tensor.layerApp (SLayer.activation "relu") base)),
            ("prob", x)] }

/-! ## Argument parsing and the main construction flow -/

/-- The command-line arguments relevant to the claims, with the argparse
defaults of lines 57-90.  `Option` encodes arguments whose default is
`None`. -/
structure Args where
  dataset : String
  data_root : String
  embedding : String
  architecture : String := "simple"
  loss : String := "inv_corr"
  cls_weight : ℚ := 0
  cls_base : Option String := none
  max_decay : ℚ := 0
  epochs : Option Int := none
  batch_size : Int := 100
  val_batch_size : Option Int := none
  snapshot : Option String := none
  finetune : Option String := none
  finetune_init : Int := 8
  gpus : Int := 1
  gpu_merge : Bool := false
  model_dump : Option String := none
  weight_dump : Option String := none
  feature_dump : Option String := none
  log_dir : Option String := none
  deriving Repr

/-- The default value `100` for `--val_batch_size` replaced by the
post-parse default of lines 94-95: the training batch size. -/
def effValBatchSize (a : Args) : Int :=
  match a.val_batch_size with
  | none => a.batch_size
  | some v => v

/-- The parts of the outside world the script consults: whether the
snapshot path exists on disk, the content of the pickled embedding file,
and the data generator's class and sample counts. -/
structure World where
  snapshotExists : String → Bool
  num_classes : Nat
  num_train : Int
  embDim : Nat

/-- The test `args.snapshot and os.path.exists(args.snapshot)` (lines 112, 129):
the snapshot argument is truthy and names an existing file. -/
def snapshotResumes (a : Args) (w : World) : Bool :=
  match a.snapshot with
  | none => false
  | some s => pyTruthyStr s && w.snapshotExists s

/-- The model produced by `keras.models.load_model(args.snapshot, ...)`:
an opaque single-output model whose layers are unknown here. -/
def loadedModel (path : String) : SModel :=
  { inputs := [0], outputs := [Tensor.snapshotOutput path], layers := [] }

/-- The model produced by `utils.build_network(embedding.shape[1],
args.architecture)`: an opaque model whose final layer is named
`'embedding'` (the script's `embedding_layer_name` default). -/
def networkModel (embDim : Nat) (architecture : String) : SModel :=
  { inputs := [0]
    outputs := [Tensor.netOutput embDim architecture]
    layers := [("embedding", Tensor.netOutput embDim architecture)] }

/-- A single-output model wrapped in one more layer (lines 119, 122, 136,
139): `keras.models.Model(model.inputs, layer(model.output))`. -/
def wrapOutput (m : SModel) (layer : SLayer) (layerName : String) : SModel :=
  { inputs := m.inputs
    outputs := [Tensor.layerApp layer (m.outputs.headD (Tensor.netOutput 0 ""))]
    layers := m.layers ++
      [(layerName, Tensor.layerApp layer (m.outputs.headD (Tensor.netOutput 0 "")))] }

/-- The freshly built model before the optional classification head
(lines 116-123): `utils.build_network`, then an `'l2norm'` Lambda layer
for `--loss inv_corr`, a `'softmax'` Activation layer for
`--loss softmax_corr`, and nothing otherwise; paired with the resulting
`embedding_layer_name`. -/
def preClsModel (a : Args) (w : World) : SModel × String :=
  let embed_model := networkModel w.embDim a.architecture
  if a.loss = "inv_corr" then
    (wrapOutput embed_model (SLayer.lambdaLayer "l2norm") "l2norm", "l2norm")
  else if a.loss = "softmax_corr" then
    (wrapOutput embed_model (SLayer.activation "softmax") "softmax", "softmax")
  else (embed_model, "embedding")

/-- Model construction (lines 112-125; lines 129-142 repeat the same block
inside a `/cpu:0` device context).  Returns the constructed model together
with `embedding_layer_name`; a failure inside `cls_model` raises
(here: `none`). -/
def constructModel (a : Args) (w : World) : Option (SModel × String) :=
  if snapshotResumes a w then
    some (loadedModel ((a.snapshot).getD ""), "embedding")
  else if a.cls_weight > 0 then
    (cls_model (preClsModel a w).1 w.num_classes a.cls_base).map
      (fun m2 => (m2, (preClsModel a w).2))
  else
    some (preClsModel a w)

/-- Whether a classification head was appended to the constructed model:
its outputs contain the output of a dense softmax layer named `'prob'`. -/
def hasClsHead (m : SModel) : Bool :=
  m.outputs.any (fun t =>
    match t with
    | Tensor.layerApp (SLayer.dense _ "softmax" _ "prob") _ => true
    | _ => false)

/-- The device context the base model is constructed under: the default
device in the `gpus <= 1 or gpu_merge` branch (line 111), `/cpu:0`
otherwise (line 128). -/
inductive Device where
  | default
  | cpu0
  deriving DecidableEq, Repr

def modelDevice (a : Args) : Device :=
  if a.gpus ≤ 1 ∨ a.gpu_merge then Device.default else Device.cpu0

/-- The model passed to `compile`/`fit`: the base model itself, or a
`multi_gpu_model` replica with the given `cpu_merge` setting
(`cpu_merge=False` on line 126; the Keras default `cpu_merge=True` on
line 143). -/
inductive ParModel where
  | base
  | multiGpu (gpus : Int) (cpu_merge : Bool)
  deriving DecidableEq, Repr

/-- The `par_model` selection (lines 126 and 143). -/
def parModelOf (a : Args) : ParModel :=
  if a.gpus ≤ 1 ∨ a.gpu_merge then
    if a.gpus ≤ 1 then ParModel.base else ParModel.multiGpu a.gpus false
  else ParModel.multiGpu a.gpus true

/-! ## Callbacks, decay, and compilation -/

/-- The callbacks the script registers (lines 187-195): the learning-rate
schedule's own callbacks from `utils.get_lr_schedule` (opaque), an
optional TensorBoard callback, and an optional checkpoint callback. -/
inductive Callback where
  | lrSchedule
  | tensorBoard (log_dir : String)
  | modelCheckpoint (path : String)
  | templateModelCheckpoint (path : String)
  deriving DecidableEq, Repr

/-- The callback list (lines 187-195): schedule callbacks, then
TensorBoard when `args.log_dir` is truthy, then — when `args.snapshot` is
truthy — `ModelCheckpoint(args.snapshot)` for a single GPU and
`utils.TemplateModelCheckpoint(model, args.snapshot)` otherwise. -/
def callbacksOf (a : Args) : List Callback :=
  [Callback.lrSchedule]
  ++ (match a.log_dir with
      | some d => if pyTruthyStr d then [Callback.tensorBoard d] else []
      | none => [])
  ++ (match a.snapshot with
      | some s =>
        if pyTruthyStr s then
          [if a.gpus ≤ 1 then Callback.modelCheckpoint s
           else Callback.templateModelCheckpoint s]
        else []
      | none => [])

/-- The expression `args.epochs if args.epochs else num_epochs` (lines 198, 214):
Python truthiness — `None` and `0` both fall back to the schedule's
`num_epochs`. -/
def effEpochs (epochs : Option Int) (num_epochs : Int) : Int :=
  match epochs with
  | some e => if e ≠ 0 then e else num_epochs
  | none => num_epochs

/-- The divisor of the decay formula:
`(num_train // batch_size) * E` with Python floor division. -/
def decayDivisor (num_train batch_size epochsEff : Int) : Int :=
  (Int.fdiv num_train batch_size) * epochsEff

/-- The decay computation (lines 197-200):
`(1.0/max_decay - 1) / ((num_train // batch_size) * E)` when
`max_decay > 0`, else `0.0`.  A zero divisor raises `ZeroDivisionError`
(here: `none`); so does `batch_size = 0` in the floor division, which the
embedding also maps to a zero divisor. -/
def computeDecay (max_decay : ℚ) (num_train batch_size : Int)
    (epochs : Option Int) (num_epochs : Int) : Option ℚ :=
  if max_decay > 0 then
    let d := decayDivisor num_train batch_size (effEpochs epochs num_epochs)
    if d = 0 then none else some ((1 / max_decay - 1) / (d : ℚ))
  else some 0

/-- The same computation with `E` read as the claim words it:
"`--epochs` if given and otherwise the schedule's epoch count"
(no Python truthiness on `0`).  This definition follows the claim's
wording, for comparison with `computeDecay`, which follows the source. -/
def computeDecaySpec (max_decay : ℚ) (num_train batch_size : Int)
    (epochs : Option Int) (num_epochs : Int) : Option ℚ :=
  if max_decay > 0 then
    let d := decayDivisor num_train batch_size (epochs.getD num_epochs)
    if d = 0 then none else some ((1 / max_decay - 1) / (d : ℚ))
  else some 0

/-- A loss assigned to a model output in `compile`. -/
inductive KLoss where
  | embedLoss (f : LossFn)
  | categoricalCrossentropy
  deriving DecidableEq, Repr

/-- A metric assigned to a model output in `compile`. -/
inductive KMetric where
  | embedMetric (m : Metric)
  | accuracyStr
  deriving DecidableEq, Repr

/-- The loss/metric configuration passed to `par_model.compile`
(lines 201-209): dictionaries keyed by output name when a classification
head is present, plain values otherwise. -/
inductive CompileCfg where
  | single (loss : LossFn) (metric : Metric)
  | dual (losses : List (String × KLoss)) (loss_weights : List (String × ℚ))
      (metrics : List (String × KMetric))
  deriving DecidableEq, Repr

/-- The main `compile` call's loss/metric configuration (lines 201-209),
given `embedding_layer_name`. -/
def mainCompileCfg (a : Args) (eln : String) : CompileCfg :=
  if a.cls_weight > 0 then
    CompileCfg.dual
      [(eln, KLoss.embedLoss (select_loss a.loss)), ("prob", KLoss.categoricalCrossentropy)]
      [(eln, 1), ("prob", a.cls_weight)]
      [(eln, KMetric.embedMetric (select_metric a.loss)), ("prob", KMetric.accuracyStr)]
  else
    CompileCfg.single (select_loss a.loss) (select_metric a.loss)

/-! ## Data-sequence construction and artifact dumping -/

/-- A construction of a data sequence by the main flow, with the batch
size it is given. -/
inductive SeqCall where
  | trainSeq (batch : Int)
  | testSeq (batch : Int)
  | flowTest (batch : Int)
  deriving DecidableEq, Repr

/-- Every data-sequence construction of a run, in program order:
the fine-tuning fit (lines 178-179, only when `args.finetune` is truthy
and `finetune_init > 0`), the main fit (lines 212-213), the final
evaluation (line 219), the classifier prediction (line 221, only when
`cls_weight > 0`), and the feature-dump `flow_test(1, False)` (line 241,
only when `feature_dump` is truthy). -/
def sequenceCalls (a : Args) : List SeqCall :=
  (if pyTruthyOptStr a.finetune && a.finetune_init > 0 then
    [SeqCall.trainSeq a.batch_size, SeqCall.testSeq (effValBatchSize a)]
  else [])
  ++ [SeqCall.trainSeq a.batch_size, SeqCall.testSeq (effValBatchSize a),
      SeqCall.testSeq (effValBatchSize a)]
  ++ (if a.cls_weight > 0 then [SeqCall.testSeq (effValBatchSize a)] else [])
  ++ (if pyTruthyOptStr a.feature_dump then [SeqCall.flowTest 1] else [])

/-- An observable event of the artifact-dumping phase (lines 228-245). -/
inductive DumpEvent where
  | attemptWeightDump (path : String)
  | attemptModelDump (path : String)
  | attemptFeatureDump (path : String)
  | printError (what : String)
  deriving DecidableEq, Repr

/-- The artifact-dumping phase (lines 228-245), given whether
`model.save_weights` and `model.save` raise.  Each of the two saves sits
in its own `try/except Exception` that prints an error message and falls
through, so the phase always reaches the feature dump. -/
def dumpTrace (a : Args) (weightRaises modelRaises : Bool) : List DumpEvent :=
  (match a.weight_dump with
   | some p =>
     if pyTruthyStr p then
       [DumpEvent.attemptWeightDump p]
       ++ (if weightRaises then [DumpEvent.printError "model weights"] else [])
     else []
   | none => [])
  ++ (match a.model_dump with
      | some p =>
        if pyTruthyStr p then
          [DumpEvent.attemptModelDump p]
          ++ (if modelRaises then [DumpEvent.printError "model"] else [])
        else []
      | none => [])
  ++ (match a.feature_dump with
      | some p => if pyTruthyStr p then [DumpEvent.attemptFeatureDump p] else []
      | none => [])

/-! ## The embedding file and the main event order -/

/-- A value stored in the pickled embedding file. -/
inductive PickleVal where
  | matrix (m : NpMatrix)
  | labels (l : List String)
  deriving DecidableEq, Repr

/-- The pickled embedding file: a mapping from string keys to values. -/
abbrev PickleDict := List (String × PickleVal)

def pickleGet (d : PickleDict) (key : String) : Option PickleVal :=
  (d.find? (fun kv => kv.1 = key)).map Prod.snd

/-- Lines 101-104: after unpickling, the script reads
`embedding['ind2label']` and `embedding['embedding']`; a missing key
raises `KeyError` (here: `none`).  Returns the matrix and the labels. -/
def loadEmbeddingFile (d : PickleDict) : Option (NpMatrix × List String) := do
  let lv ← pickleGet d "ind2label"
  let mv ← pickleGet d "embedding"
  match mv, lv with
  | PickleVal.matrix m, PickleVal.labels l => pure (m, l)
  | _, _ => none

/-- A coarse event of the main flow, used to state ordering claims. -/
inductive Event where
  | setSession
  | loadEmbedding (path : String)
  | loadDataset (dataset : String) (root : String)
  | loadSnapshot (path : String)
  | buildNetwork (embDim : Nat) (architecture : String)
  | compileModel
  | fitModel
  deriving DecidableEq, Repr

/-- The main flow as an event list (lines 98-216): configure the session,
unpickle the embedding file, construct the data generator, then construct
or load the model (the network builder receives `embedding.shape[1]`),
compile, and fit. -/
def mainTrace (a : Args) (snapshotExists : String → Bool) (d : PickleDict) :
    Option (List Event) := do
  let (m, _labels) ← loadEmbeddingFile d
  let w : World := { snapshotExists := snapshotExists, num_classes := 0,
                     num_train := 0, embDim := npShape1 m }
  pure ([Event.setSession, Event.loadEmbedding a.embedding,
         Event.loadDataset a.dataset a.data_root]
    ++ (if snapshotResumes a w then [Event.loadSnapshot ((a.snapshot).getD "")]
        else [Event.buildNetwork (npShape1 m) a.architecture])
    ++ [Event.compileModel, Event.fitModel])

/-! ## Helper lemmas -/

/-- When every label is in range, fancy indexing returns exactly the list
of selected rows. -/
lemma npIndexRows_eq_map (embedding : NpMatrix) (y : List Nat)
    (h : ∀ i ∈ y, i < embedding.length) :
    npIndexRows embedding y = some (y.map (fun i => embedding.getD i [])) := by
  induction y with
  | nil => rfl
  | cons a t ih =>
    have ha : a < embedding.length := h a (List.mem_cons_self a t)
    have ht : ∀ i ∈ t, i < embedding.length := fun i hi => h i (List.mem_cons_of_mem a hi)
    simp [npIndexRows, ih ht, List.getElem?_eq_getElem ha, List.getD_eq_getElem _ _ ha]

/-! ## Claim theorems -/

/-- C1: for every batch `(X, y)` and loaded embedding matrix (with labels
in range), `transform_inputs` keeps `X` and produces as regression target
for each image `k` the class-semantic vector `embedding[y[k]]`: with
`num_classes = None` it returns `(X, embedding[y])`, and with
`num_classes = n` it returns `(X, [embedding[y], to_categorical(y, n)])`;
`batch_transform_kwargs` sets `num_classes` to the dataset's class count
exactly when `cls_weight > 0`, so the fitted model regresses images onto
the precomputed class vectors. -/
theorem transform_inputs_maps_images_to_class_vectors {α : Type} (X : α)
    (y : List Nat) (embedding : NpMatrix)
    (h : ∀ i ∈ y, i < embedding.length) :
    (transform_inputs X y embedding none
        = some (X, RegTarget.single (y.map (fun i => embedding.getD i []))))
    ∧ (∀ n : Nat, transform_inputs X y embedding (some n)
        = some (X, RegTarget.pair (y.map (fun i => embedding.getD i []))
            (to_categorical y n)))
    ∧ (∀ k, k < y.length →
        (y.map (fun i => embedding.getD i [])).getD k []
          = embedding.getD (y.getD k 0) [])
    ∧ (∀ (cls_weight : ℚ) (nc : Nat),
        transform_inputs X y embedding (batch_transform_num_classes cls_weight nc)
          = if cls_weight > 0 then
              some (X, RegTarget.pair (y.map (fun i => embedding.getD i []))
                (to_categorical y nc))
            else
              some (X, RegTarget.single (y.map (fun i => embedding.getD i [])))) := by
  have hrows := npIndexRows_eq_map embedding y h
  refine ⟨by simp [transform_inputs, hrows], fun n => by simp [transform_inputs, hrows],
    fun k hk => ?_, fun cls_weight nc => ?_⟩
  · rw [List.getD_eq_getElem _ _ (by simpa using hk), List.getD_eq_getElem _ _ hk,
      List.getElem_map]
  · by_cases hcw : cls_weight > 0
    · simp [batch_transform_num_classes, hcw, transform_inputs, hrows]
    · simp [batch_transform_num_classes, hcw, transform_inputs, hrows]

/-- Witness for C1 at a concrete batch and embedding matrix. -/
theorem transform_inputs_maps_images_to_class_vectors_witness :
    (∀ i ∈ [1, 0], i < ([[(1 : ℚ), 2], [3, 4]] : NpMatrix).length)
    ∧ transform_inputs () [1, 0] [[(1 : ℚ), 2], [3, 4]] none
        = some ((), RegTarget.single [[3, 4], [1, 2]]) :=
  ⟨by decide,
    ((transform_inputs_maps_images_to_class_vectors () [1, 0]
      [[(1 : ℚ), 2], [3, 4]] (by decide)).1).trans (by norm_num)⟩

/-- C2: for every admissible `--loss` value, the training loss is
`utils.inv_correlation` exactly when the loss name ends with `'_corr'`
and `utils.squared_distance` otherwise (the only such choice being
`'mse'`); the metric is `'accuracy'` exactly for `'softmax_corr'`,
`utils.nn_accuracy` with dot-product similarity for the other `'_corr'`
losses, and `utils.nn_accuracy` with distance-based similarity for
`'mse'`. -/
theorem loss_metric_selection (loss : String) (h : loss ∈ lossChoices) :
    (pyEndsWith loss "_corr" = true → select_loss loss = LossFn.inv_correlation)
    ∧ (pyEndsWith loss "_corr" = false →
        loss = "mse" ∧ select_loss loss = LossFn.squared_distance)
    ∧ (select_metric loss = Metric.accuracy ↔ loss = "softmax_corr")
    ∧ (pyEndsWith loss "_corr" = true → loss ≠ "softmax_corr" →
        select_metric loss = Metric.nn_accuracy true)
    ∧ (loss = "mse" → select_metric loss = Metric.nn_accuracy false) := by
  simp only [lossChoices, List.mem_cons, List.not_mem_nil, or_false] at h
  rcases h with rfl | rfl | rfl | rfl <;> exact (by decide)

/-- Witness for C2 at `--loss inv_corr`. -/
theorem loss_metric_selection_witness :
    "inv_corr" ∈ lossChoices
    ∧ select_loss "inv_corr" = LossFn.inv_correlation
    ∧ select_metric "inv_corr" = Metric.nn_accuracy true :=
  ⟨by decide,
    (loss_metric_selection "inv_corr" (by decide)).1 (by decide),
    (loss_metric_selection "inv_corr" (by decide)).2.2.2.1 (by decide) (by decide)⟩

/-- Anatomy of a successful `cls_model` call. -/
lemma cls_model_eq_some {m : SModel} {nc : Nat} {b : Option String} {m' : SModel}
    (h : cls_model m nc b = some m') :
    ∃ out base, m.outputs.head? = some out ∧ clsBaseTensor m b = some base
      ∧ m'.inputs = m.inputs ∧ m'.outputs = [out, clsStack nc base] := by
  unfold cls_model at h
  cases ho : m.outputs.head? with
  | none => rw [ho] at h; simp at h
  | some out =>
    rw [ho] at h
    cases hb : clsBaseTensor m b with
    | none => rw [hb] at h; simp at h
    | some base =>
      rw [hb] at h
      simp only [Option.bind_eq_bind, Option.some_bind, Option.pure_def,
        Option.some.injEq] at h
      subst h
      exact ⟨out, base, rfl, rfl, rfl, rfl⟩

/-- A model returned by `cls_model` carries a classification head. -/
lemma hasClsHead_of_cls_model {m : SModel} {nc : Nat} {b : Option String}
    {m' : SModel} (h : cls_model m nc b = some m') : hasClsHead m' = true := by
  obtain ⟨out, base, -, -, -, ho⟩ := cls_model_eq_some h
  simp [hasClsHead, ho, clsStack]

/-- Before the optional classification head, the constructed model has
none. -/
lemma hasClsHead_preClsModel (a : Args) (w : World) :
    hasClsHead (preClsModel a w).1 = false := by
  unfold preClsModel
  split_ifs <;> simp [hasClsHead, wrapOutput, networkModel]

/-- The arguments of the C3 counterexample run: a positive `--cls_weight`
together with a `--snapshot` that exists on disk. -/
def c3Args : Args :=
  { dataset := "cifar-100", data_root := "/data", embedding := "emb.pkl"
    cls_weight := 1, snapshot := some "snap.h5" }

def c3World : World :=
  { snapshotExists := fun _ => true, num_classes := 100, num_train := 50000
    embDim := 100 }

/-- C3 counterexample: on a run that resumes from an existing snapshot
with `--cls_weight 1`, the model is deserialized as-is and `cls_model` is
never called, so no classification head is appended although `cls_weight`
is positive — refuting the claimed equivalence for every run. -/
theorem cls_head_iff_counterexample :
    constructModel c3Args c3World = some (loadedModel "snap.h5", "embedding")
    ∧ ¬ (hasClsHead (loadedModel "snap.h5") = true ↔ 0 < c3Args.cls_weight) := by
  constructor
  · decide
  · decide

/-- C3 (amended: for runs that do not resume from an existing snapshot):
a classification head is appended iff `--cls_weight` is positive; when
appended it is `cls_model`'s stack of a ReLU activation, batch
normalization, and a dense softmax layer named `'prob'`; and the compile
configuration weights the `'prob'` categorical-crossentropy loss by
`cls_weight` while the embedding loss keeps weight `1.0`. -/
theorem cls_head_iff_cls_weight (a : Args) (w : World) (m : SModel) (eln : String)
    (hs : snapshotResumes a w = false)
    (hm : constructModel a w = some (m, eln)) :
    (hasClsHead m = true ↔ 0 < a.cls_weight)
    ∧ (0 < a.cls_weight →
        ∃ out base, m.outputs = [out, clsStack w.num_classes base]
          ∧ clsStack w.num_classes base
              = Tensor.layerApp (SLayer.dense w.num_classes "softmax" (5 / 10000) "prob")
                  (Tensor.layerApp SLayer.batchNormalization
                    (Tensor.layerApp (SLayer.activation "relu") base)))
    ∧ (0 < a.cls_weight →
        mainCompileCfg a eln = CompileCfg.dual
          [(eln, KLoss.embedLoss (select_loss a.loss)),
           ("prob", KLoss.categoricalCrossentropy)]
          [(eln, 1), ("prob", a.cls_weight)]
          [(eln, KMetric.embedMetric (select_metric a.loss)),
           ("prob", KMetric.accuracyStr)])
    ∧ (¬ 0 < a.cls_weight →
        mainCompileCfg a eln = CompileCfg.single (select_loss a.loss) (select_metric a.loss)) := by
  rw [constructModel, hs] at hm
  simp only [Bool.false_eq_true, if_false] at hm
  by_cases hcw : a.cls_weight > 0
  · rw [if_pos hcw] at hm
    obtain ⟨m2, hm2, hpair⟩ := Option.map_eq_some'.mp hm
    simp only [Prod.mk.injEq] at hpair
    obtain ⟨hmm, -⟩ := hpair
    subst hmm
    obtain ⟨out, base, -, -, -, ho⟩ := cls_model_eq_some hm2
    refine ⟨⟨fun _ => hcw, fun _ => hasClsHead_of_cls_model hm2⟩,
      fun _ => ⟨out, base, ho, rfl⟩, fun _ => ?_, fun hn => absurd hcw hn⟩
    simp [mainCompileCfg, hcw]
  · rw [if_neg hcw] at hm
    simp only [Option.some.injEq] at hm
    have hmm : m = (preClsModel a w).1 := by rw [hm]
    refine ⟨?_, fun hp => absurd hp hcw, fun hp => absurd hp hcw, fun _ => ?_⟩
    · rw [hmm, hasClsHead_preClsModel]
      simp only [Bool.false_eq_true, false_iff]
      exact hcw
    · simp [mainCompileCfg, hcw]

/-- The arguments of the C3 witness run: no snapshot, `cls_weight = 0`,
and the non-wrapping loss `unnorm_corr`. -/
def c3wArgs : Args :=
  { dataset := "cifar-100", data_root := "/data", embedding := "emb.pkl"
    loss := "unnorm_corr", cls_weight := 0 }

/-- Witness for the amended C3 at a run without a snapshot and with
`cls_weight = 0`. -/
theorem cls_head_iff_cls_weight_witness :
    (hasClsHead (networkModel 100 "simple") = true ↔ 0 < c3wArgs.cls_weight) :=
  (cls_head_iff_cls_weight c3wArgs c3World (networkModel 100 "simple") "embedding"
    (by decide) (by decide)).1

/-- The arguments of the C4 witness run: a snapshot path, single GPU. -/
def c4Args : Args :=
  { dataset := "cifar-100", data_root := "/data", embedding := "emb.pkl"
    snapshot := some "snap.h5" }

/-- C4: when `--snapshot` names an existing file, the model is
deserialized from it instead of being built from the architecture
library; and whenever `--snapshot` is given (existing or not), a
checkpoint callback on that path is registered — `ModelCheckpoint` for a
single GPU, `utils.TemplateModelCheckpoint` otherwise — so training can
be resumed from the snapshot. -/
theorem snapshot_resume_and_checkpoint (a : Args) (w : World) (s : String)
    (hsnap : a.snapshot = some s) (hne : s ≠ "") :
    (w.snapshotExists s = true →
      constructModel a w = some (loadedModel s, "embedding"))
    ∧ (if a.gpus ≤ 1 then Callback.modelCheckpoint s ∈ callbacksOf a
       else Callback.templateModelCheckpoint s ∈ callbacksOf a) := by
  constructor
  · intro hex
    have hres : snapshotResumes a w = true := by
      simp [snapshotResumes, hsnap, pyTruthyStr, hne, hex]
    rw [constructModel, hres]
    simp [hsnap]
  · have : pyTruthyStr s = true := by simp [pyTruthyStr, hne]
    split_ifs with hg <;> simp [callbacksOf, hsnap, this, hg]

/-- Witness for C4: a single-GPU run whose snapshot exists. -/
theorem snapshot_resume_and_checkpoint_witness :
    constructModel c4Args c3World = some (loadedModel "snap.h5", "embedding")
    ∧ Callback.modelCheckpoint "snap.h5" ∈ callbacksOf c4Args := by
  have h := snapshot_resume_and_checkpoint c4Args c3World "snap.h5" rfl (by decide)
  exact ⟨h.1 rfl, by simpa using h.2⟩

/-- C5: the class embeddings come from the pickled `--embedding` file,
which must provide the matrix under key `'embedding'` and the class
labels under key `'ind2label'` (a missing key raises); the load happens
before model construction, and the network builder receives the second
dimension of the loaded matrix. -/
theorem embedding_loaded_before_network_build (a : Args) (ex : String → Bool)
    (d : PickleDict) (mat : NpMatrix) (ls : List String)
    (hm : pickleGet d "embedding" = some (PickleVal.matrix mat))
    (hl : pickleGet d "ind2label" = some (PickleVal.labels ls)) :
    loadEmbeddingFile d = some (mat, ls)
    ∧ (∀ d' : PickleDict,
        pickleGet d' "embedding" = none ∨ pickleGet d' "ind2label" = none →
        loadEmbeddingFile d' = none)
    ∧ (∀ evs, mainTrace a ex d = some evs →
        evs.get? 1 = some (Event.loadEmbedding a.embedding)
        ∧ ∀ n dim arch, evs.get? n = some (Event.buildNetwork dim arch) →
            1 < n ∧ dim = npShape1 mat ∧ arch = a.architecture) := by
  have hload : loadEmbeddingFile d = some (mat, ls) := by
    simp [loadEmbeddingFile, hm, hl]
  refine ⟨hload, fun d' hd' => ?_, fun evs hevs => ?_⟩
  · rcases hd' with hd' | hd'
    · cases hli : pickleGet d' "ind2label" with
      | none => simp [loadEmbeddingFile, hli]
      | some v => simp [loadEmbeddingFile, hli, hd']
    · simp [loadEmbeddingFile, hd']
  · rw [mainTrace, hload] at hevs
    simp only [Option.bind_eq_bind, Option.some_bind, Option.pure_def,
      Option.some.injEq] at hevs
    subst hevs
    by_cases hres : snapshotResumes a
        { snapshotExists := ex, num_classes := 0, num_train := 0,
          embDim := npShape1 mat } = true
    · rw [hres]
      refine ⟨rfl, fun n dim arch hn => ?_⟩
      rcases n with _ | _ | _ | _ | _ | _ | n <;> simp_all
    · rw [Bool.not_eq_true] at hres
      rw [hres]
      refine ⟨rfl, fun n dim arch hn => ?_⟩
      rcases n with _ | _ | _ | _ | _ | _ | n <;> simp_all [Event.buildNetwork.injEq]

/-- The pickled embedding file of the C5 witness. -/
def c5Dict : PickleDict :=
  [("embedding", PickleVal.matrix [[1, 2, 3], [4, 5, 6]]),
   ("ind2label", PickleVal.labels ["cat", "dog"])]

/-- Witness for C5 at a concrete pickled file and run. -/
theorem embedding_loaded_before_network_build_witness :
    loadEmbeddingFile c5Dict = some ([[1, 2, 3], [4, 5, 6]], ["cat", "dog"]) :=
  (embedding_loaded_before_network_build c3wArgs (fun _ => false) c5Dict
    [[1, 2, 3], [4, 5, 6]] ["cat", "dog"] (by decide) (by decide)).1

/-- C6: the model used for fitting is the base model itself when
`--gpus <= 1`, and a multi-GPU replica otherwise; with `--gpu_merge` the
replica merges weights on the GPU (`cpu_merge=False`) and the base model
is built under the default device, while without `--gpu_merge` and more
than one GPU the base model is constructed on `/cpu:0` and the replica
uses the Keras default `cpu_merge=True`. -/
theorem multi_gpu_selection (a : Args) :
    (a.gpus ≤ 1 → parModelOf a = ParModel.base ∧ modelDevice a = Device.default)
    ∧ (1 < a.gpus → a.gpu_merge = true →
        parModelOf a = ParModel.multiGpu a.gpus false ∧ modelDevice a = Device.default)
    ∧ (1 < a.gpus → a.gpu_merge = false →
        parModelOf a = ParModel.multiGpu a.gpus true ∧ modelDevice a = Device.cpu0) := by
  refine ⟨fun h => ?_, fun h hm => ?_, fun h hm => ?_⟩
  · simp [parModelOf, modelDevice, h]
  · have h' : ¬ a.gpus ≤ 1 := by omega
    simp [parModelOf, modelDevice, h', hm]
  · have h' : ¬ a.gpus ≤ 1 := by omega
    simp [parModelOf, modelDevice, h', hm]

/-- The arguments of the C6 witness run: two GPUs with `--gpu_merge`. -/
def c6Args : Args :=
  { dataset := "cifar-100", data_root := "/data", embedding := "emb.pkl"
    gpus := 2, gpu_merge := true }

/-- Witness for C6 at a two-GPU run with `--gpu_merge`. -/
theorem multi_gpu_selection_witness :
    parModelOf c6Args = ParModel.multiGpu 2 false
    ∧ modelDevice c6Args = Device.default :=
  (multi_gpu_selection c6Args).2.1 (by decide) (by decide)

/-- C7: each of the two model dumps sits in its own `try/except` that
prints an error and falls through, so a raising `save_weights` or `save`
still prints its message and every later dump — in particular the
test-image feature dump — is attempted regardless. -/
theorem dump_failures_do_not_abort (a : Args) (wR mR : Bool) :
    (∀ p, a.weight_dump = some p → p ≠ "" →
      DumpEvent.attemptWeightDump p ∈ dumpTrace a wR mR
      ∧ (wR = true → DumpEvent.printError "model weights" ∈ dumpTrace a wR mR))
    ∧ (∀ p, a.model_dump = some p → p ≠ "" →
      DumpEvent.attemptModelDump p ∈ dumpTrace a wR mR
      ∧ (mR = true → DumpEvent.printError "model" ∈ dumpTrace a wR mR))
    ∧ (∀ p, a.feature_dump = some p → p ≠ "" →
      DumpEvent.attemptFeatureDump p ∈ dumpTrace a wR mR) := by
  refine ⟨fun p hp hne => ⟨?_, fun hraise => ?_⟩,
    fun p hp hne => ⟨?_, fun hraise => ?_⟩, fun p hp hne => ?_⟩
  · simp [dumpTrace, hp, pyTruthyStr, hne]
  · simp [dumpTrace, hp, pyTruthyStr, hne, hraise]
  · simp [dumpTrace, hp, pyTruthyStr, hne]
  · simp [dumpTrace, hp, pyTruthyStr, hne, hraise]
  · simp [dumpTrace, hp, pyTruthyStr, hne]

/-- The arguments of the C7 witness run: all three dumps requested. -/
def c7Args : Args :=
  { dataset := "cifar-100", data_root := "/data", embedding := "emb.pkl"
    weight_dump := some "w.h5", model_dump := some "m.h5"
    feature_dump := some "f.pkl" }

/-- Witness for C7: both saves raise, yet the feature dump is attempted
and both errors are printed. -/
theorem dump_failures_do_not_abort_witness :
    DumpEvent.attemptFeatureDump "f.pkl" ∈ dumpTrace c7Args true true
    ∧ DumpEvent.printError "model weights" ∈ dumpTrace c7Args true true
    ∧ DumpEvent.attemptModelDump "m.h5" ∈ dumpTrace c7Args true true :=
  ⟨(dump_failures_do_not_abort c7Args true true).2.2 "f.pkl" rfl (by decide),
   ((dump_failures_do_not_abort c7Args true true).1 "w.h5" rfl (by decide)).2 rfl,
   ((dump_failures_do_not_abort c7Args true true).2.1 "m.h5" rfl (by decide)).1⟩

/-- C8: a successful `cls_model` call returns a model with exactly two
outputs whose first is the unchanged original output of `embed_model`;
the second is the appended classifier stack branching from the base
tensor, which is chosen by layer index when `cls_base` parses as an int
and by layer name otherwise. -/
theorem cls_model_outputs_and_base (m : SModel) (nc : Nat) (b : Option String)
    (m' : SModel) (h : cls_model m nc b = some m') :
    m'.outputs.length = 2
    ∧ m'.outputs.head? = m.outputs.head?
    ∧ (∃ base, clsBaseTensor m b = some base
        ∧ m'.outputs.get? 1 = some (clsStack nc base))
    ∧ (∀ s, b = some s →
        (∀ i, pyParseInt s = some i →
          clsBaseTensor m b = (pyIndex m.layers i).map Prod.snd)
        ∧ (pyParseInt s = none →
          clsBaseTensor m b = (m.get_layer s).map Prod.snd)) := by
  obtain ⟨out, base, ho, hb, -, houts⟩ := cls_model_eq_some h
  refine ⟨by simp [houts], by simp [houts, ho], ⟨base, hb, by simp [houts]⟩,
    fun s hs => ?_⟩
  subst hs
  exact ⟨fun i hi => by simp [clsBaseTensor, hi],
    fun hi => by simp [clsBaseTensor, hi]⟩

/-- The embedding model of the C8 witness: two layers, the interior one
named `conv1`. -/
def c8Model : SModel :=
  { inputs := [0]
    outputs := [Tensor.netOutput 3 "simple"]
    layers := [("conv1", Tensor.netOutput 1 "a"),
               ("embedding", Tensor.netOutput 3 "simple")] }

/-- The model `cls_model` returns on the C8 witness run (`cls_base "0"`
selects the interior `conv1` layer by index). -/
def c8Result : SModel :=
  { inputs := [0]
    outputs := [Tensor.netOutput 3 "simple", clsStack 4 (Tensor.netOutput 1 "a")]
    layers := c8Model.layers ++
      [("relu_act", Tensor.layerApp (SLayer.activation "relu") (Tensor.netOutput 1 "a")),
       ("batch_norm", Tensor.layerApp SLayer.batchNormalization
         (Tensor.layerApp (SLayer.activation "relu") (Tensor.netOutput 1 "a"))),
       ("prob", clsStack 4 (Tensor.netOutput 1 "a"))] }

/-- Witness for C8: `cls_base = "0"` branches from the interior layer
while the first output stays the original model output. -/
theorem cls_model_outputs_and_base_witness :
    cls_model c8Model 4 (some "0") = some c8Result
    ∧ c8Result.outputs.length = 2
    ∧ c8Result.outputs.head? = c8Model.outputs.head? :=
  ⟨rfl, (cls_model_outputs_and_base c8Model 4 (some "0") c8Result rfl).1,
    (cls_model_outputs_and_base c8Model 4 (some "0") c8Result rfl).2.1⟩

/-- C9 counterexample: with `--epochs 0` (given but falsy) the code falls
back to the schedule's epoch count — here yielding a decay of `0` — while
the claim's reading of `E` (`--epochs` whenever given) makes the divisor
zero, i.e. a `ZeroDivisionError`. -/
theorem decay_epochs_zero_counterexample :
    computeDecay 1 10 1 (some 0) 5 = some 0
    ∧ computeDecaySpec 1 10 1 (some 0) 5 = none := by
  constructor
  · norm_num [computeDecay, decayDivisor, effEpochs]
  · norm_num [computeDecaySpec, decayDivisor]

/-- C9 (amended: `E` is `--epochs` if given and nonzero, otherwise the
schedule's epoch count): with `--max_decay > 0` the decay is
`(1/max_decay - 1) / ((num_train // batch_size) * E)` and otherwise `0.0`;
for positive batch size, non-negative sample count and non-negative `E`
the divisor is nonzero exactly when `batch_size ≤ num_train` and
`1 ≤ E`. -/
theorem decay_formula (max_decay : ℚ) (num_train batch_size : Int)
    (epochs : Option Int) (num_epochs : Int) :
    (0 < max_decay →
      computeDecay max_decay num_train batch_size epochs num_epochs
        = (if decayDivisor num_train batch_size (effEpochs epochs num_epochs) = 0
           then none
           else some ((1 / max_decay - 1)
             / (decayDivisor num_train batch_size (effEpochs epochs num_epochs) : ℚ))))
    ∧ (¬ 0 < max_decay →
        computeDecay max_decay num_train batch_size epochs num_epochs = some 0)
    ∧ (1 ≤ batch_size → 0 ≤ num_train → 0 ≤ effEpochs epochs num_epochs →
        (decayDivisor num_train batch_size (effEpochs epochs num_epochs) ≠ 0
          ↔ batch_size ≤ num_train ∧ 1 ≤ effEpochs epochs num_epochs)) := by
  refine ⟨fun h => by simp [computeDecay, h], fun h => by simp [computeDecay, h],
    fun hb hn hE => ?_⟩
  have hbpos : (0 : Int) < batch_size := by omega
  have hfd : Int.fdiv num_train batch_size = num_train / batch_size :=
    Int.fdiv_eq_ediv _ (by omega)
  have hnn : 0 ≤ num_train / batch_size := Int.ediv_nonneg hn (by omega)
  have hiff : num_train / batch_size ≠ 0 ↔ batch_size ≤ num_train := by
    constructor
    · intro h0
      have h1 : 1 ≤ num_train / batch_size := by omega
      have h2 := (Int.le_ediv_iff_mul_le hbpos).mp h1
      omega
    · intro hle
      have h2 : 1 * batch_size ≤ num_train := by omega
      have h1 := (Int.le_ediv_iff_mul_le hbpos).mpr h2
      omega
  unfold decayDivisor
  rw [hfd]
  constructor
  · intro hne
    obtain ⟨h1, h2⟩ := mul_ne_zero_iff.mp hne
    exact ⟨hiff.mp h1, by omega⟩
  · rintro ⟨h1, h2⟩
    exact mul_ne_zero (hiff.mpr h1) (by omega)

/-- Witness for the amended C9 at a concrete run. -/
theorem decay_formula_witness :
    decayDivisor 100 10 (effEpochs none 5) ≠ 0
      ↔ (10 : Int) ≤ 100 ∧ 1 ≤ effEpochs none 5 :=
  (decay_formula 1 100 10 none 5).2.2 (by decide) (by decide) (by decide)

/-- C10: when `--val_batch_size` is not supplied, the validation batch
size equals `--batch_size`, and every test/validation sequence of the run
is constructed with that value. -/
theorem val_batch_size_defaults (a : Args) (h : a.val_batch_size = none) :
    effValBatchSize a = a.batch_size
    ∧ ∀ b, SeqCall.testSeq b ∈ sequenceCalls a → b = a.batch_size := by
  have he : effValBatchSize a = a.batch_size := by simp [effValBatchSize, h]
  refine ⟨he, fun b hb => ?_⟩
  rw [sequenceCalls, he] at hb
  split_ifs at hb <;> simp_all

/-- Witness for C10: the default arguments leave `--val_batch_size`
unset, so the effective validation batch size is the training one. -/
theorem val_batch_size_defaults_witness :
    effValBatchSize c3wArgs = c3wArgs.batch_size :=
  (val_batch_size_defaults c3wArgs rfl).1

end LearnImageEmbeddings
